import Mathlib

/-!
Shallow embedding of the jeecg-a2a coordination core
(`src/core/protocol/models.py`, `src/core/protocol/handlers.py`,
`src/core/agent_registry/registry.py`, `src/core/scheduler/scheduler.py`)
and proofs about the spec's claims over it.

Modelling conventions:
* `datetime.utcnow()` is an explicit `Nat` clock argument `now`.
* Python's `str(uuid.uuid4())` is modelled as drawing from an injective
  supply (`Gen`): the n-th draw is `Ident.uuid n`; distinct draws are
  distinct values, matching the code's freshness assumption.
* Python's builtin `hash` (used for agent ids) is an arbitrary function
  `pyhash : String → Int`, passed explicitly; `str(hash x)` is modelled by
  the hash value itself (`str` on ints is injective, so nothing is lost).
* Python `dict`s are insertion-ordered association lists: updating an
  existing key keeps its position, a new key is appended at the end.
* A value that a Python function can `raise` out of is an `Except` /
  explicit error constructor; a caught-and-converted exception is plain data.
-/

set_option autoImplicit false

namespace A2A

/-- Insertion-ordered dictionary lookup (first entry with the key). -/
def alookup {κ β : Type} [DecidableEq κ] : List (κ × β) → κ → Option β
  | [], _ => none
  | e :: l, k => if e.1 = k then some e.2 else alookup l k

/-- Lookup with default, Python's `d.get(k, v0)`. -/
def alookupD {κ β : Type} [DecidableEq κ] (l : List (κ × β)) (k : κ) (v0 : β) : β :=
  (alookup l k).getD v0

/-- Python `k in d`. -/
def amem {κ β : Type} [DecidableEq κ] (l : List (κ × β)) (k : κ) : Bool :=
  (alookup l k).isSome

/-- Python `d[k] = v`: replace in place if the key exists, else append. -/
def aset {κ β : Type} [DecidableEq κ] : List (κ × β) → κ → β → List (κ × β)
  | [], k, v => [(k, v)]
  | e :: l, k, v => if e.1 = k then (k, v) :: l else e :: aset l k v

/-- Python `del d[k]` (no-op when absent; callers check membership first). -/
def adel {κ β : Type} [DecidableEq κ] : List (κ × β) → κ → List (κ × β)
  | [], _ => []
  | e :: l, k => if e.1 = k then l else e :: adel l k

/-- Python `s.rstrip('/')`: remove every trailing `'/'`. -/
def rstripSlash (s : String) : String :=
  ⟨(s.data.reverse.dropWhile (fun c => c = '/')).reverse⟩

/-- Python `s.startswith(p)`. -/
def strStartsWith (s p : String) : Bool :=
  decide (s.data.take p.data.length = p.data)

/-- Python `str.lower()` on one character (ASCII range, which covers the
capability names and URLs the code compares). -/
def pyCharLower (c : Char) : Char :=
  if 'A' ≤ c ∧ c ≤ 'Z' then Char.ofNat (c.toNat + 32) else c

/-- Python `s.lower()`. -/
def pyLower (s : String) : String :=
  ⟨s.data.map pyCharLower⟩

/-- One value of the process-wide `str(uuid.uuid4())` supply. `uuid n` is the
n-th draw; `client s` is a caller-supplied identifier string that did not come
from the supply. -/
inductive Ident : Type where
  | uuid : Nat → Ident
  | client : String → Ident
deriving DecidableEq, Repr

/-- State of the `uuid.uuid4()` supply: the index of the next draw. -/
structure Gen : Type where
  counter : Nat
deriving DecidableEq, Repr

/-- `str(uuid.uuid4())`: return a fresh identifier and advance the supply. -/
def uuid4 (g : Gen) : Ident × Gen :=
  (Ident.uuid g.counter, { counter := g.counter + 1 })

/-! ## `core/protocol/models.py` -/

/-- `TaskState` (models.py:15-21). -/
inductive TaskState : Type where
  | submitted
  | in_progress
  | completed
  | failed
  | cancelled
deriving DecidableEq, Repr

/-- `Message` (models.py:49-59). Only the fields the embedded operations read
are modelled; parts/timestamps are opaque to every claim. -/
structure Message : Type where
  role : String
  text : String
deriving DecidableEq, Repr

/-- `TaskStatus` (models.py:62-71). The float `progress` field is not read by
any embedded operation and is omitted. -/
structure TaskStatus : Type where
  state : TaskState
  message : Option String
  error : Option String
  updatedAt : Nat
deriving DecidableEq, Repr

/-- `Task` (models.py:74-85): the fields read by the scheduler. The Python
`id` is a string; the falsy/empty id checked by `submit_task` is
`Ident.client ""`. `history`/`artifacts` are touched by no embedded
operation and are omitted. -/
structure Task : Type where
  id : Ident
  contextId : Option String
  sessionId : Option String
  message : Message
  metadata : List (String × String)
  status : TaskStatus
  updatedAt : Nat
deriving DecidableEq, Repr

/-- `Task.update_status` (models.py:92-101): the status value is replaced
wholesale, with no guard on the current state. -/
def Task.update_status (t : Task) (state : TaskState) (message : Option String)
    (error : Option String) (now : Nat) : Task :=
  { t with
    status := { state := state, message := message, error := error, updatedAt := now }
    updatedAt := now }

/-- `Capability` (models.py:104-110). -/
structure Capability : Type where
  name : String
  description : String
  inputTypes : List String
  outputTypes : List String
deriving DecidableEq, Repr

/-- One element of `AgentCard.capabilities`. The pydantic annotation is
`Optional[List[Dict[str, Any]]]`, so entries parsed from an agent's JSON are
plain dicts (`dict`), while `AgentCard.add_capability` appends `Capability`
objects (`obj`); both shapes occur in the source. -/
inductive CapEntry : Type where
  | obj : Capability → CapEntry
  | dict : List (String × String) → CapEntry
deriving DecidableEq, Repr

/-- `AgentCard` (models.py:126-151): the fields read by the registry and
scheduler. `status` is used as a plain string on every embedded code path
(`"active" | "unhealthy" | "error"`); the `Union[str, Dict]` escape hatch is
only consulted by `get_registry_stats`, which no claim touches. Remaining
card fields (provider, modes, auth, …) are read by no embedded operation. -/
structure AgentCard : Type where
  name : String
  url : String
  version : String
  description : Option String
  capabilities : List CapEntry
  status : String
  lastSeen : Nat
deriving DecidableEq, Repr

/-- `AgentCard.update_last_seen` (models.py:165-167). -/
def AgentCard.update_last_seen (c : AgentCard) (now : Nat) : AgentCard :=
  { c with lastSeen := now }

/-- `TaskRequest` (models.py:178-184). Note: it has no task-id field. -/
structure TaskRequest : Type where
  message : Message
  contextId : Option String
  sessionId : Option String
  metadata : List (String × String)
deriving DecidableEq, Repr

/-! ## `core/protocol/handlers.py` -/

/-- Outcome of one outbound HTTP request as the handler observes it:
either a response with a status code, or a raised transport error. -/
inductive HttpOutcome : Type where
  | status : Nat → HttpOutcome
  | transportError : String → HttpOutcome
deriving DecidableEq, Repr

/-- URL normalization shared by the handler methods (handlers.py:50-54,
117-121, 211-214, 237-240): prefix `http://` when no scheme, then strip
trailing slashes. -/
def normalizeAgentUrl (u : String) : String :=
  let u' := if strStartsWith u "http://" || strStartsWith u "https://" then u else "http://" ++ u
  rstripSlash u'

/-- The health endpoint the handler pings (handlers.py:241). -/
def healthUrl (agentUrl : String) : String :=
  normalizeAgentUrl agentUrl ++ "/health"

/-- `A2AProtocolHandler.health_check` (handlers.py:226-248): GET the health
URL; the result is `response.status_code == 200`; any raised exception is
caught and yields `false`. `response` is the outcome of that GET. -/
def health_check (agentUrl : String) (response : HttpOutcome) : Bool :=
  match healthUrl agentUrl, response with
  | _, HttpOutcome.status code => code == 200
  | _, HttpOutcome.transportError _ => false

/-- The `a2a_protocol` header block built in `submit_task`
(handlers.py:160-168). -/
structure A2AProtocolHeader : Type where
  version : String
  messageType : String
  sourceAgent : String
  targetAgent : String
  correlationId : Ident
  timestamp : Nat
deriving DecidableEq, Repr

/-- The `payload` block built in `submit_task` (handlers.py:169-175). -/
structure TaskPayload : Type where
  taskId : Ident
  message : Message
  metadata : List (String × String)
  contextId : Option String
  sessionId : Option String
deriving DecidableEq, Repr

/-- The wire envelope `request_data` of `submit_task` (handlers.py:160-176). -/
structure A2ARequest : Type where
  a2aProtocol : A2AProtocolHeader
  payload : TaskPayload
deriving DecidableEq, Repr

/-- The request-building part of `A2AProtocolHandler.submit_task`
(handlers.py:137-176): draw a fresh correlation id, then a fresh payload
`task_id`, and copy the `TaskRequest` fields into the payload (`process_data`
is the identity on the abstract message/metadata values modelled here). -/
def build_submit_request (tr : TaskRequest) (g : Gen) (now : Nat) : A2ARequest × Gen :=
  let cg := uuid4 g
  let tg := uuid4 cg.2
  ({ a2aProtocol :=
      { version := "1.0"
        messageType := "task_request"
        sourceAgent := "jeecg-a2a-platform"
        targetAgent := "codegen-expert"
        correlationId := cg.1
        timestamp := now }
     payload :=
      { taskId := tg.1
        message := tr.message
        metadata := tr.metadata
        contextId := tr.contextId
        sessionId := tr.sessionId } }, tg.2)

/-! ## `core/agent_registry/registry.py` -/

/-- Result of a Python call observed by its caller: a returned value, or a
raised exception escaping the call. -/
inductive PyResult (α : Type) : Type where
  | ok : α → PyResult α
  | exn : String → PyResult α
deriving DecidableEq, Repr

/-- `AgentRegistry` state: `self.agents`, an insertion-ordered dict from
agent id (`str(hash(normalized url))`, modelled by the hash value — `str` on
ints is injective) to the stored `AgentCard` object. The key doubles as the
identity of the stored heap object: a card handed out by `list_agents` IS the
stored object, so a field write through such a reference is modelled as a
write to the entry with that key. -/
structure RegState : Type where
  agents : List (Int × AgentCard)
deriving DecidableEq, Repr

/-- `AgentRegistry._url_to_id` (registry.py:233-236): `str(hash(url.rstrip('/')))`. -/
def url_to_id (pyhash : String → Int) (url : String) : Int :=
  pyhash (rstripSlash url)

/-- `AgentRegistry._validate_agent_card` (registry.py:238-261): non-empty
`name` and `url`, and an `http(s)` scheme. -/
def validate_agent_card (c : AgentCard) : Bool :=
  if c.name = "" || c.url = "" then false
  else strStartsWith c.url "http://" || strStartsWith c.url "https://"

/-- Result of `AgentRegistry.register_agent`: the returned boolean, the new
registry state, and whether `get_agent_card` was invoked (instrumentation for
the "does not re-contact the agent" part of the spec; it is `true` exactly
when control reached registry.py:80). -/
structure RegisterOutcome : Type where
  success : Bool
  state : RegState
  contacted : Bool
deriving DecidableEq, Repr

/-- `AgentRegistry.register_agent` (registry.py:57-100). `fetch` is the
outcome of the `get_agent_card` call (which returns `none` on any caught
HTTP/parse error and can itself only raise outside the `Exception` class —
if it does raise, register's own `except` converts it to `False`). -/
def register_agent (pyhash : String → Int) (r : RegState) (agentUrl : String)
    (forceRefresh : Bool) (fetch : PyResult (Option AgentCard)) (now : Nat) :
    RegisterOutcome :=
  let agentId := url_to_id pyhash agentUrl
  if amem r.agents agentId && !forceRefresh then
    match alookup r.agents agentId with
    | some card =>
      { success := true
        state := ⟨aset r.agents agentId (card.update_last_seen now)⟩
        contacted := false }
    | none =>
      { success := true, state := r, contacted := false }
  else
    match fetch with
    | PyResult.exn _ => { success := false, state := r, contacted := true }
    | PyResult.ok none => { success := false, state := r, contacted := true }
    | PyResult.ok (some card) =>
      if !validate_agent_card card then
        { success := false, state := r, contacted := true }
      else
        { success := true
          state := ⟨aset r.agents (url_to_id pyhash agentUrl) (card.update_last_seen now)⟩
          contacted := true }

/-- `AgentRegistry.unregister_agent` (registry.py:102-124). -/
def unregister_agent (r : RegState) (agentId : Int) : Bool × RegState :=
  if amem r.agents agentId then (true, ⟨adel r.agents agentId⟩) else (false, r)

/-- `AgentRegistry.get_agent_card` lookup (registry.py:126-136). -/
def get_agent_card_by_id (r : RegState) (agentId : Int) : Option AgentCard :=
  alookup r.agents agentId

/-- `AgentRegistry.list_agents` (registry.py:151-158):
`list(self.agents.values())` — a fresh list whose elements are the stored
card objects themselves. -/
def list_agents (r : RegState) : List AgentCard :=
  r.agents.map (fun e => e.2)

/-- The attribute access `capability.name` (registry.py:174): an
`AttributeError` escapes when the entry is a plain dict (the shape the
pydantic annotation `List[Dict[str, Any]]` gives every entry parsed from an
agent's JSON). -/
def capAttrName : CapEntry → Except String String
  | CapEntry.obj c => Except.ok c.name
  | CapEntry.dict _ => Except.error "AttributeError: dict object has no attribute name"

/-- The inner loop of `find_agents_by_capability` (registry.py:173-176):
scan the card's capability entries, `break` on the first case-insensitive
name match. -/
def cardMatchesCapability : List CapEntry → String → Except String Bool
  | [], _ => Except.ok false
  | c :: rest, target =>
    match capAttrName c with
    | Except.error e => Except.error e
    | Except.ok n =>
      if pyLower n = pyLower target then Except.ok true
      else cardMatchesCapability rest target

/-- The outer loop of `find_agents_by_capability` over `self.agents.values()`
in insertion order (registry.py:170-178). -/
def findCapGo (capabilityName : String) :
    List (Int × AgentCard) → Except String (List AgentCard)
  | [] => Except.ok []
  | e :: rest =>
    match cardMatchesCapability e.2.capabilities capabilityName with
    | Except.error err => Except.error err
    | Except.ok true =>
      match findCapGo capabilityName rest with
      | Except.error err => Except.error err
      | Except.ok l => Except.ok (e.2 :: l)
    | Except.ok false => findCapGo capabilityName rest

/-- `AgentRegistry.find_agents_by_capability` (registry.py:160-178). The
method has no `try`/`except`: an `AttributeError` from `capability.name`
propagates to the caller. -/
def find_agents_by_capability (r : RegState) (capabilityName : String) :
    Except String (List AgentCard) :=
  findCapGo capabilityName r.agents

/-! ## `core/scheduler/scheduler.py` -/

/-- `self.agent_loads : Dict[str, int]` keyed by `_get_agent_id` (modelled by
the hash value, as for the registry ids); values are Python ints. -/
abbrev Loads := List (Int × Int)

/-- `TaskScheduler._get_agent_id` (scheduler.py:360-362):
`str(hash(agent_card.url.rstrip('/')))`. -/
def agentIdOf (pyhash : String → Int) (c : AgentCard) : Int :=
  pyhash (rstripSlash c.url)

/-- Load increment (scheduler.py:280):
`self.agent_loads[agent_id] = self.agent_loads.get(agent_id, 0) + 1`. -/
def incLoad (l : Loads) (a : Int) : Loads :=
  aset l a (alookupD l a 0 + 1)

/-- Load decrement in the `finally` block (scheduler.py:304-308):
`if agent_id in self.agent_loads: self.agent_loads[agent_id] = max(0, self.agent_loads[agent_id] - 1)`. -/
def decLoad (l : Loads) (a : Int) : Loads :=
  if amem l a then aset l a (max 0 (alookupD l a 0 - 1)) else l

/-- What `protocol_handler.submit_task` produced, as the scheduler sees it:
a truthy JSON body (`ok`), a falsy return (`None` after a caught HTTP or
transport error, or an empty body), or an exception raised into the
scheduler's `except Exception` arm. -/
inductive DispatchOutcome : Type where
  | ok
  | falsy
  | exn : String → DispatchOutcome
deriving DecidableEq, Repr

/-- `TaskScheduler._execute_task_on_agent` (scheduler.py:265-308): increment
the agent's load, build a `TaskRequest` (no task id field — see
`build_submit_request`), await the protocol submit, return the truthiness of
the result; the `except` arm returns `False`; the `finally` arm decrements
the load on every exit path. -/
def execute_task_on_agent (pyhash : String → Int) (loads : Loads)
    (card : AgentCard) (outcome : DispatchOutcome) : Bool × Loads :=
  let aid := agentIdOf pyhash card
  let loads1 := incLoad loads aid
  let success :=
    match outcome with
    | DispatchOutcome.ok => true
    | DispatchOutcome.falsy => false
    | DispatchOutcome.exn _ => false
  (success, decLoad loads1 aid)

/-- The `TaskRequest` the scheduler builds for a dispatch
(scheduler.py:283-288): message, context, session, metadata — the
scheduler's `task.id` is not among the fields. -/
def mkTaskRequest (t : Task) : TaskRequest :=
  { message := t.message
    contextId := t.contextId
    sessionId := t.sessionId
    metadata := t.metadata }

/-- Entries of `list_agents` whose `status == "active"`
(scheduler.py:235), with their registry keys kept to track object identity. -/
def activeEntries (r : RegState) : List (Int × AgentCard) :=
  r.agents.filter (fun e => e.2.status = "active")

/-- The selection loop of `_find_suitable_agent` (scheduler.py:245-254):
`lowest_load` starts at infinity, an agent replaces the current best only
when its load is strictly lower, so ties keep the earliest agent. -/
def pickLowestGo (pyhash : String → Int) (loads : Loads) :
    Option ((Int × AgentCard) × Int) → List (Int × AgentCard) →
    Option (Int × AgentCard)
  | acc, [] => acc.map (fun p => p.1)
  | acc, e :: rest =>
    let l := alookupD loads (agentIdOf pyhash e.2) 0
    match acc with
    | none => pickLowestGo pyhash loads (some (e, l)) rest
    | some b =>
      if l < b.2 then pickLowestGo pyhash loads (some (e, l)) rest
      else pickLowestGo pyhash loads (some b) rest

/-- `TaskScheduler._find_suitable_agent` (scheduler.py:220-263): list the
registry, filter `status == "active"`, pick the lowest-load agent. Its
`try`/`except` arm (return `None`) is dead here: the body performs no
fallible operation in the model. -/
def find_suitable_agent (pyhash : String → Int) (r : RegState) (loads : Loads) :
    Option (Int × AgentCard) :=
  pickLowestGo pyhash loads none (activeEntries r)

/-- A field write `card.status = st` through a reference obtained from
`list_agents`: the card is the registry's stored object, so the write lands
in the registry entry holding it. -/
def writeStatus (r : RegState) (k : Int) (st : String) : RegState :=
  ⟨r.agents.map (fun e => if e.1 = k then (e.1, { e.2 with status := st }) else e)⟩

/-- Result of processing one task: the task object (with its final status),
the registry and loads as left behind, the deltas of the
completed/failed counters, and the registry keys dispatched to, in order. -/
structure ProcResult : Type where
  task : Task
  reg : RegState
  loads : Loads
  completedDelta : Nat
  failedDelta : Nat
  dispatches : List Int
deriving DecidableEq, Repr

/-- `TaskScheduler._handle_task_failure` (scheduler.py:310-343): mark the
failed card `"unhealthy"` (an aliased write into the registry), re-run
`_find_suitable_agent`, dispatch at most once more when the alternative's
URL differs, else fall through to `FAILED`. -/
def handle_task_failure (pyhash : String → Int) (r : RegState) (loads : Loads)
    (t : Task) (failedKey : Int) (failedCard : AgentCard)
    (outcome2 : DispatchOutcome) (now : Nat) : ProcResult :=
  let r1 := writeStatus r failedKey "unhealthy"
  let failedCard1 := { failedCard with status := "unhealthy" }
  match find_suitable_agent pyhash r1 loads with
  | some alt =>
    if alt.2.url ≠ failedCard1.url then
      let res := execute_task_on_agent pyhash loads alt.2 outcome2
      if res.1 then
        { task := t.update_status TaskState.completed (some "Task completed after failover") none now
          reg := r1, loads := res.2
          completedDelta := 1, failedDelta := 0, dispatches := [alt.1] }
      else
        { task := t.update_status TaskState.failed (some "Task failed and no alternative agent available") none now
          reg := r1, loads := res.2
          completedDelta := 0, failedDelta := 1, dispatches := [alt.1] }
    else
      { task := t.update_status TaskState.failed (some "Task failed and no alternative agent available") none now
        reg := r1, loads := loads
        completedDelta := 0, failedDelta := 1, dispatches := [] }
  | none =>
    { task := t.update_status TaskState.failed (some "Task failed and no alternative agent available") none now
      reg := r1, loads := loads
      completedDelta := 0, failedDelta := 1, dispatches := [] }

/-- `TaskScheduler._process_task` (scheduler.py:181-218): transition to
`IN_PROGRESS`, route, dispatch (`outcome1`), on success `COMPLETED`, on
failure run the failover path (`outcome2` being the second dispatch's
result, if one happens). The deferred `_cleanup_task` is outside every
claim and not modelled. -/
def process_task (pyhash : String → Int) (r : RegState) (loads : Loads)
    (t : Task) (outcome1 outcome2 : DispatchOutcome) (now : Nat) : ProcResult :=
  let t1 := t.update_status TaskState.in_progress (some "Finding suitable agent") none now
  match find_suitable_agent pyhash r loads with
  | none =>
    { task := t1.update_status TaskState.failed (some "No suitable agent found") none now
      reg := r, loads := loads
      completedDelta := 0, failedDelta := 1, dispatches := [] }
  | some chosen =>
    let res := execute_task_on_agent pyhash loads chosen.2 outcome1
    if res.1 then
      { task := t1.update_status TaskState.completed (some "Task completed successfully") none now
        reg := r, loads := res.2
        completedDelta := 1, failedDelta := 0, dispatches := [chosen.1] }
    else
      let hr := handle_task_failure pyhash r res.2 t1 chosen.1 chosen.2 outcome2 now
      { hr with dispatches := chosen.1 :: hr.dispatches }

/-- `TaskScheduler` public-API state: the active-task dict and the queue. -/
structure SchedState : Type where
  activeTasks : List (Ident × Task)
  taskQueue : List Task
deriving DecidableEq, Repr

/-- `TaskScheduler.submit_task` (scheduler.py:88-117): assign a fresh uuid
when the id is falsy, set `SUBMITTED`, store in `active_tasks`, then await
`task_queue.put`; `putRaises` is the exception (if any) that the awaited put
raises (e.g. a cancellation while blocked on a full queue) — the method's
`except Exception` arm logs and re-`raise`s it to the caller. -/
def submit_task (s : SchedState) (t : Task) (g : Gen) (now : Nat)
    (putRaises : Option String) : PyResult Ident × SchedState × Gen :=
  let p :=
    if t.id = Ident.client "" then
      let u := uuid4 g
      ({ t with id := u.1 }, u.2)
    else (t, g)
  let t1 := p.1.update_status TaskState.submitted (some "Task submitted to scheduler") none now
  let s1 := { s with activeTasks := aset s.activeTasks t1.id t1 }
  match putRaises with
  | some e => (PyResult.exn e, s1, p.2)
  | none => (PyResult.ok t1.id, { s1 with taskQueue := s1.taskQueue ++ [t1] }, p.2)

/-- `TaskScheduler.get_task_status` (scheduler.py:119-130). -/
def get_task_status (s : SchedState) (taskId : Ident) : Option TaskStatus :=
  (alookup s.activeTasks taskId).map (fun t => t.status)

/-- `TaskScheduler.cancel_task` (scheduler.py:132-153): look the task up;
absent → `False`; otherwise `update_status(CANCELLED, ...)` —
unconditionally, with no check of the current state — and return `True`. -/
def cancel_task (s : SchedState) (taskId : Ident) (now : Nat) : Bool × SchedState :=
  match alookup s.activeTasks taskId with
  | none => (false, s)
  | some t =>
    let t1 := t.update_status TaskState.cancelled (some "Task cancelled by user") none now
    (true, { s with activeTasks := aset s.activeTasks taskId t1 })

/-! ## Dispatch traces

The per-agent load counters against the dispatches currently in flight.
Each run of `_execute_task_on_agent` contributes exactly one
`beginDispatch` (the increment before the protocol submit) and exactly one
`endDispatch` (the `finally` decrement when the dispatch resolves).
`loadsAfter` folds the code's own increment/decrement over a trace;
`inflightAfter` counts in-flight dispatches exactly; `wfTrace` states that a
trace is operationally possible (a dispatch only ends after it began). -/

/-- A dispatch event on an agent id. -/
inductive Ev : Type where
  | beginDispatch : Int → Ev
  | endDispatch : Int → Ev
deriving DecidableEq, Repr

/-- The code's load update for one event (scheduler.py:280 and 304-308). -/
def applyEv (l : Loads) : Ev → Loads
  | Ev.beginDispatch a => incLoad l a
  | Ev.endDispatch a => decLoad l a

/-- Fold the code's load updates over a trace. -/
def loadsAfter : Loads → List Ev → Loads
  | l, [] => l
  | l, e :: tr => loadsAfter (applyEv l e) tr

/-- Exact in-flight counting for one event. -/
def inflightStep (f : Loads) : Ev → Loads
  | Ev.beginDispatch a => aset f a (alookupD f a 0 + 1)
  | Ev.endDispatch a => aset f a (alookupD f a 0 - 1)

/-- In-flight dispatch counts after a trace. -/
def inflightAfter : Loads → List Ev → Loads
  | f, [] => f
  | f, e :: tr => inflightAfter (inflightStep f e) tr

/-- A trace is well formed w.r.t. current in-flight counts `f` when every
`endDispatch` resolves a dispatch that is actually in flight. -/
def wfTrace : Loads → List Ev → Bool
  | _, [] => true
  | f, Ev.beginDispatch a :: tr => wfTrace (inflightStep f (Ev.beginDispatch a)) tr
  | f, Ev.endDispatch a :: tr =>
    decide (1 ≤ alookupD f a 0) && wfTrace (inflightStep f (Ev.endDispatch a)) tr

/-! ## Dictionary lemmas -/

theorem alookup_aset_self {κ β : Type} [DecidableEq κ] (l : List (κ × β)) (k : κ) (v : β) :
    alookup (aset l k v) k = some v := by
  induction l with
  | nil => simp [aset, alookup]
  | cons e l ih =>
    by_cases h : e.1 = k <;> simp [aset, alookup, h, ih]

theorem alookup_aset_ne {κ β : Type} [DecidableEq κ] (l : List (κ × β)) (k k' : κ) (v : β)
    (h : k ≠ k') : alookup (aset l k v) k' = alookup l k' := by
  induction l with
  | nil => simp [aset, alookup, h]
  | cons e l ih =>
    by_cases he : e.1 = k
    · simp [aset, alookup, he, h]
    · by_cases he' : e.1 = k' <;> simp [aset, alookup, he, he', ih, Ne.symm h]

theorem alookupD_aset_self {κ β : Type} [DecidableEq κ] (l : List (κ × β)) (k : κ) (v d : β) :
    alookupD (aset l k v) k d = v := by
  simp [alookupD, alookup_aset_self]

theorem alookupD_aset_ne {κ β : Type} [DecidableEq κ] (l : List (κ × β)) (k k' : κ) (v d : β)
    (h : k ≠ k') : alookupD (aset l k v) k' d = alookupD l k' d := by
  simp [alookupD, alookup_aset_ne l k k' v h]

theorem amem_of_one_le {l : Loads} {a : Int} (h : 1 ≤ alookupD l a 0) : amem l a = true := by
  unfold amem
  cases hl : alookup l a with
  | none =>
    exfalso
    simp [alookupD, hl] at h
  | some v => simp

theorem length_aset_of_amem {κ β : Type} [DecidableEq κ] (l : List (κ × β)) (k : κ) (v : β)
    (h : amem l k = true) : (aset l k v).length = l.length := by
  induction l with
  | nil => simp [amem, alookup] at h
  | cons e l ih =>
    by_cases he : e.1 = k
    · simp [aset, he]
    · have h' : amem l k = true := by
        simpa [amem, alookup, he] using h
      simp [aset, he, ih h']

theorem amem_aset_self {κ β : Type} [DecidableEq κ] (l : List (κ × β)) (k : κ) (v : β) :
    amem (aset l k v) k = true := by
  simp [amem, alookup_aset_self]

/-! ## `rstrip('/')` lemmas -/

theorem dropWhile_dropWhile {α : Type} (p : α → Bool) (l : List α) :
    (l.dropWhile p).dropWhile p = l.dropWhile p := by
  induction l with
  | nil => simp
  | cons a l ih =>
    by_cases h : p a = true
    · simp [List.dropWhile, h, ih]
    · simp [List.dropWhile, h]

theorem rstripSlash_idem (s : String) : rstripSlash (rstripSlash s) = rstripSlash s := by
  unfold rstripSlash
  simp [dropWhile_dropWhile]

theorem rstripSlash_append_slash (s : String) :
    rstripSlash (s ++ "/") = rstripSlash s := by
  unfold rstripSlash
  have hd : (s ++ "/").data = s.data ++ ['/'] := by
    simp [String.data_append]
  simp [hd, List.dropWhile]

/-! ## Selection and aliased-write lemmas -/

theorem pickLowestGo_mem (pyhash : String → Int) (loads : Loads) :
    ∀ (entries : List (Int × AgentCard)) (acc : Option ((Int × AgentCard) × Int))
      (res : Int × AgentCard),
      pickLowestGo pyhash loads acc entries = some res →
      (∃ p, acc = some p ∧ res = p.1) ∨ res ∈ entries := by
  intro entries
  induction entries with
  | nil =>
    intro acc res h
    cases acc with
    | none => simp [pickLowestGo] at h
    | some p =>
      left
      refine ⟨p, rfl, ?_⟩
      simp [pickLowestGo] at h
      exact h.symm
  | cons e rest ih =>
    intro acc res h
    cases acc with
    | none =>
      rcases ih _ _ (by simpa [pickLowestGo] using h) with ⟨p, hp, hr⟩ | hmem
      · right
        cases hp
        simp [hr]
      · right
        exact List.mem_cons_of_mem e hmem
    | some b =>
      by_cases hlt : alookupD loads (agentIdOf pyhash e.2) 0 < b.2
      · rcases ih _ _ (by simpa [pickLowestGo, hlt] using h) with ⟨p, hp, hr⟩ | hmem
        · right
          cases hp
          simp [hr]
        · right
          exact List.mem_cons_of_mem e hmem
      · rcases ih _ _ (by simpa [pickLowestGo, hlt] using h) with ⟨p, hp, hr⟩ | hmem
        · left
          cases hp
          exact ⟨b, rfl, hr⟩
        · right
          exact List.mem_cons_of_mem e hmem

theorem find_suitable_agent_mem (pyhash : String → Int) (r : RegState) (loads : Loads)
    (res : Int × AgentCard) (h : find_suitable_agent pyhash r loads = some res) :
    res ∈ r.agents ∧ res.2.status = "active" := by
  rcases pickLowestGo_mem pyhash loads (activeEntries r) none res h with ⟨p, hp, _⟩ | hmem
  · cases hp
  · have := List.mem_filter.mp hmem
    refine ⟨this.1, by simpa using this.2⟩

theorem alookup_writeStatus_self (r : RegState) (k : Int) (st : String) :
    alookup (writeStatus r k st).agents k =
      (alookup r.agents k).map (fun c => { c with status := st }) := by
  unfold writeStatus
  induction r.agents with
  | nil => simp [alookup]
  | cons e l ih =>
    by_cases he : e.1 = k
    · simp [alookup, he]
    · simp [alookup, he, ih]

theorem writeStatus_mem_of_ne (r : RegState) (k : Int) (st : String)
    (e : Int × AgentCard) (hmem : e ∈ (writeStatus r k st).agents) (hne : e.1 ≠ k) :
    e ∈ r.agents := by
  unfold writeStatus at hmem
  rcases List.mem_map.mp hmem with ⟨e0, he0, heq⟩
  by_cases h0 : e0.1 = k
  · rw [if_pos h0] at heq
    exact absurd (by rw [← heq]; exact h0) hne
  · rw [if_neg h0] at heq
    rw [← heq]
    exact he0

theorem writeStatus_key_ne_of_active (r : RegState) (k : Int)
    (e : Int × AgentCard) (hmem : e ∈ (writeStatus r k "unhealthy").agents)
    (hact : e.2.status = "active") : e.1 ≠ k := by
  intro hk
  unfold writeStatus at hmem
  rcases List.mem_map.mp hmem with ⟨e0, _, heq⟩
  by_cases h0 : e0.1 = k
  · rw [if_pos h0] at heq
    rw [← heq] at hact
    simp at hact
  · rw [if_neg h0] at heq
    rw [← heq] at hk
    exact h0 hk

/-! ## Load-counter invariant -/

theorem loads_track_inflight :
    ∀ (tr : List Ev) (l f : Loads),
      (∀ a, alookupD l a 0 = alookupD f a 0) →
      (∀ a, 0 ≤ alookupD f a 0) →
      wfTrace f tr = true →
      (∀ a, alookupD (loadsAfter l tr) a 0 = alookupD (inflightAfter f tr) a 0) ∧
      (∀ a, 0 ≤ alookupD (inflightAfter f tr) a 0) := by
  intro tr
  induction tr with
  | nil =>
    intro l f he hn _
    exact ⟨he, hn⟩
  | cons ev tr ih =>
    intro l f he hn hwf
    cases ev with
    | beginDispatch a =>
      have hstep : ∀ b, alookupD (applyEv l (Ev.beginDispatch a)) b 0 =
          alookupD (inflightStep f (Ev.beginDispatch a)) b 0 := by
        intro b
        by_cases hb : a = b
        · subst hb
          simp [applyEv, incLoad, inflightStep, alookupD_aset_self, he a]
        · simp [applyEv, incLoad, inflightStep,
            alookupD_aset_ne _ a b _ _ hb, he b]
      have hnn : ∀ b, 0 ≤ alookupD (inflightStep f (Ev.beginDispatch a)) b 0 := by
        intro b
        by_cases hb : a = b
        · subst hb
          rw [inflightStep, alookupD_aset_self]
          have := hn a
          omega
        · rw [inflightStep, alookupD_aset_ne _ a b _ _ hb]
          exact hn b
      exact ih _ _ hstep hnn (by simpa [wfTrace] using hwf)
    | endDispatch a =>
      rw [wfTrace, Bool.and_eq_true, decide_eq_true_eq] at hwf
      obtain ⟨h1, hwf⟩ := hwf
      have h1l : 1 ≤ alookupD l a 0 := by rw [he a]; exact h1
      have hmem : amem l a = true := amem_of_one_le h1l
      have hdec : applyEv l (Ev.endDispatch a) = aset l a (alookupD l a 0 - 1) := by
        have hmax : max 0 (alookupD l a 0 - 1) = alookupD l a 0 - 1 := by omega
        simp [applyEv, decLoad, hmem, hmax]
      have hstep : ∀ b, alookupD (applyEv l (Ev.endDispatch a)) b 0 =
          alookupD (inflightStep f (Ev.endDispatch a)) b 0 := by
        intro b
        by_cases hb : a = b
        · subst hb
          rw [hdec, inflightStep, alookupD_aset_self, alookupD_aset_self, he a]
        · rw [hdec, inflightStep, alookupD_aset_ne _ a b _ _ hb,
            alookupD_aset_ne _ a b _ _ hb, he b]
      have hnn : ∀ b, 0 ≤ alookupD (inflightStep f (Ev.endDispatch a)) b 0 := by
        intro b
        by_cases hb : a = b
        · subst hb
          rw [inflightStep, alookupD_aset_self]
          omega
        · rw [inflightStep, alookupD_aset_ne _ a b _ _ hb]
          exact hn b
      exact ih _ _ hstep hnn hwf

/-! ## Claim C1 — terminal states and `cancel_task` -/

/-- A task that already reached the terminal `COMPLETED` state. -/
def c1CompletedTask : Task :=
  { id := Ident.client "t1"
    contextId := none
    sessionId := none
    message := { role := "user", text := "do it" }
    metadata := []
    status := { state := TaskState.completed
                message := some "Task completed successfully"
                error := none
                updatedAt := 1 }
    updatedAt := 1 }

/-- A scheduler state tracking only `c1CompletedTask`. -/
def c1State : SchedState :=
  { activeTasks := [(Ident.client "t1", c1CompletedTask)], taskQueue := [] }

/-- C1 counterexample: `cancel_task` on a task whose stored status is the
terminal `COMPLETED` returns `true` (the claim says `false`) and replaces
the stored status with `CANCELLED` (the claim says terminal states are
never changed by any subsequent operation). -/
theorem c1_counterexample :
    get_task_status c1State (Ident.client "t1") =
      some { state := TaskState.completed
             message := some "Task completed successfully"
             error := none
             updatedAt := 1 } ∧
    (cancel_task c1State (Ident.client "t1") 2).1 = true ∧
    get_task_status (cancel_task c1State (Ident.client "t1") 2).2 (Ident.client "t1") =
      some { state := TaskState.cancelled
             message := some "Task cancelled by user"
             error := none
             updatedAt := 2 } := by
  refine ⟨rfl, rfl, rfl⟩

/-- C1 (amended): no state of the stored status is terminal for the
scheduler's writes — `Task.update_status` replaces the status
unconditionally; `cancel_task` on any tracked task (terminal or not)
returns `true` and overwrites the status with `CANCELLED`, and it returns
`false` (leaving the state unchanged) only when the task id is not
tracked. -/
theorem c1_amended (s : SchedState) (taskId : Ident) (now : Nat) :
    (∀ t, alookup s.activeTasks taskId = some t →
      (cancel_task s taskId now).1 = true ∧
      (cancel_task s taskId now).2.activeTasks =
        aset s.activeTasks taskId
          (t.update_status TaskState.cancelled (some "Task cancelled by user") none now)) ∧
    (alookup s.activeTasks taskId = none → cancel_task s taskId now = (false, s)) := by
  constructor
  · intro t ht
    simp [cancel_task, ht]
  · intro h
    simp [cancel_task, h]

/-- Witness for `c1_amended` at a concrete tracked (terminal) task. -/
theorem c1_amended_witness :
    (cancel_task c1State (Ident.client "t1") 2).1 = true ∧
    (cancel_task c1State (Ident.client "t1") 2).2.activeTasks =
      aset c1State.activeTasks (Ident.client "t1")
        (c1CompletedTask.update_status TaskState.cancelled
          (some "Task cancelled by user") none 2) :=
  (c1_amended c1State (Ident.client "t1") 2).1 c1CompletedTask rfl

/-! ## Claim C2 — exception propagation out of public operations -/

/-- A plain task used to drive `submit_task`. -/
def c2Task : Task :=
  { id := Ident.client "t9"
    contextId := none
    sessionId := none
    message := { role := "user", text := "work" }
    metadata := []
    status := { state := TaskState.submitted, message := none, error := none, updatedAt := 0 }
    updatedAt := 0 }

/-- A card whose capability entries are plain dicts (the shape of every
JSON-registered card). -/
def c2DictCard : AgentCard :=
  { name := "D"
    url := "http://d:1"
    version := "1.0.0"
    description := none
    capabilities := [CapEntry.dict [("name", "chat")]]
    status := "active"
    lastSeen := 0 }

/-- C2 counterexample: `TaskScheduler.submit_task` ends its `except` arm
with a bare `raise` — when the internal queue insertion raises, the
exception propagates to the caller instead of being converted to a typed
result. -/
theorem c2_counterexample :
    (submit_task { activeTasks := [], taskQueue := [] } c2Task { counter := 0 } 1
        (some "CancelledError")).1 = PyResult.exn "CancelledError" := rfl

/-- C2 (amended): the Registry's operations convert internal exceptions
(`register_agent` returns `False` when the card fetch raises), but two
public operations do propagate: `Scheduler.submit_task` re-raises any
internal exception, and `Registry.find_agents_by_capability` propagates an
`AttributeError` whenever a record's capability entries are plain dicts. -/
theorem c2_amended :
    (∀ (pyhash : String → Int) (r : RegState) (agentUrl e : String) (now : Nat),
      amem r.agents (url_to_id pyhash agentUrl) = false →
      register_agent pyhash r agentUrl false (PyResult.exn e) now =
        { success := false, state := r, contacted := true }) ∧
    (∀ (s : SchedState) (t : Task) (g : Gen) (now : Nat) (e : String),
      (submit_task s t g now (some e)).1 = PyResult.exn e) ∧
    (∀ (k : Int) (c : AgentCard) (d : List (String × String)) (cs : List CapEntry)
        (rest : List (Int × AgentCard)) (n : String),
      c.capabilities = CapEntry.dict d :: cs →
      find_agents_by_capability ⟨(k, c) :: rest⟩ n =
        Except.error "AttributeError: dict object has no attribute name") := by
  refine ⟨?_, ?_, ?_⟩
  · intro pyhash r agentUrl e now hmem
    simp [register_agent, hmem]
  · intro s t g now e
    by_cases h : t.id = Ident.client "" <;> simp [submit_task, h]
  · intro k c d cs rest n hc
    simp [find_agents_by_capability, findCapGo, cardMatchesCapability, hc, capAttrName]

/-- Witness for `c2_amended` at concrete inputs. -/
theorem c2_amended_witness :
    register_agent (fun _ => 0) ⟨[]⟩ "http://h:1" false (PyResult.exn "boom") 1 =
      { success := false, state := ⟨[]⟩, contacted := true } ∧
    (submit_task { activeTasks := [], taskQueue := [] } c2Task { counter := 0 } 1
        (some "CancelledError")).1 = PyResult.exn "CancelledError" ∧
    find_agents_by_capability ⟨[(1, c2DictCard)]⟩ "chat" =
      Except.error "AttributeError: dict object has no attribute name" :=
  ⟨c2_amended.1 (fun _ => 0) ⟨[]⟩ "http://h:1" "boom" 1 rfl,
   c2_amended.2.1 { activeTasks := [], taskQueue := [] } c2Task { counter := 0 } 1 "CancelledError",
   c2_amended.2.2 1 c2DictCard [("name", "chat")] [] [] "chat" rfl⟩

/-! ## Claim C3 — registration idempotent on the normalized URL -/

/-- C3: registering a URL twice without `force_refresh`: the id both calls
compute is the same pure function of the URL with trailing slashes stripped;
the second call succeeds through the fast path without contacting the agent
(`contacted = false`), stores the existing record with only `last_seen`
bumped, and leaves the registry's total agent count unchanged. -/
theorem c3_register_idempotent (pyhash : String → Int) (r : RegState) (u : String)
    (card : AgentCard) (now1 now2 : Nat) (fetch2 : PyResult (Option AgentCard))
    (hnew : amem r.agents (url_to_id pyhash u) = false)
    (hvalid : validate_agent_card card = true) :
    (register_agent pyhash r u false (PyResult.ok (some card)) now1).success = true ∧
    (register_agent pyhash
        (register_agent pyhash r u false (PyResult.ok (some card)) now1).state
        u false fetch2 now2).success = true ∧
    (register_agent pyhash
        (register_agent pyhash r u false (PyResult.ok (some card)) now1).state
        u false fetch2 now2).contacted = false ∧
    (register_agent pyhash
        (register_agent pyhash r u false (PyResult.ok (some card)) now1).state
        u false fetch2 now2).state.agents.length =
      (register_agent pyhash r u false (PyResult.ok (some card)) now1).state.agents.length ∧
    alookup (register_agent pyhash
        (register_agent pyhash r u false (PyResult.ok (some card)) now1).state
        u false fetch2 now2).state.agents (url_to_id pyhash u) =
      some { card with lastSeen := now2 } ∧
    url_to_id pyhash u = url_to_id pyhash (rstripSlash u) ∧
    url_to_id pyhash (u ++ "/") = url_to_id pyhash u := by
  have h1 : register_agent pyhash r u false (PyResult.ok (some card)) now1 =
      { success := true
        state := ⟨aset r.agents (url_to_id pyhash u) (card.update_last_seen now1)⟩
        contacted := true } := by
    simp [register_agent, hnew, hvalid]
  have hm2 : amem (aset r.agents (url_to_id pyhash u) (card.update_last_seen now1))
      (url_to_id pyhash u) = true := amem_aset_self _ _ _
  have h2 : register_agent pyhash
      (⟨aset r.agents (url_to_id pyhash u) (card.update_last_seen now1)⟩ : RegState)
      u false fetch2 now2 =
      { success := true
        state := ⟨aset (aset r.agents (url_to_id pyhash u) (card.update_last_seen now1))
          (url_to_id pyhash u) ((card.update_last_seen now1).update_last_seen now2)⟩
        contacted := false } := by
    simp [register_agent, hm2, alookup_aset_self]
  refine ⟨?_, ?_, ?_, ?_, ?_, ?_, ?_⟩
  · simp [h1]
  · simp [h1, h2]
  · simp [h1, h2]
  · simp only [h1, h2]
    exact length_aset_of_amem _ _ _ hm2
  · simp only [h1, h2]
    rw [alookup_aset_self]
    simp [AgentCard.update_last_seen]
  · simp [url_to_id, rstripSlash_idem]
  · simp [url_to_id, rstripSlash_append_slash]

/-- The card used by the C3 witness. -/
def c3Card : AgentCard :=
  { name := "X"
    url := "http://h:1"
    version := "1.0.0"
    description := none
    capabilities := []
    status := "active"
    lastSeen := 0 }

/-- Witness for `c3_register_idempotent` on an empty registry and the URL
`"http://h:1/"`. -/
theorem c3_witness :
    (register_agent (fun _ => 7) ⟨[]⟩ "http://h:1/" false (PyResult.ok (some c3Card)) 1).success = true ∧
    (register_agent (fun _ => 7)
        (register_agent (fun _ => 7) ⟨[]⟩ "http://h:1/" false (PyResult.ok (some c3Card)) 1).state
        "http://h:1/" false (PyResult.ok none) 2).success = true ∧
    (register_agent (fun _ => 7)
        (register_agent (fun _ => 7) ⟨[]⟩ "http://h:1/" false (PyResult.ok (some c3Card)) 1).state
        "http://h:1/" false (PyResult.ok none) 2).contacted = false ∧
    (register_agent (fun _ => 7)
        (register_agent (fun _ => 7) ⟨[]⟩ "http://h:1/" false (PyResult.ok (some c3Card)) 1).state
        "http://h:1/" false (PyResult.ok none) 2).state.agents.length =
      (register_agent (fun _ => 7) ⟨[]⟩ "http://h:1/" false (PyResult.ok (some c3Card)) 1).state.agents.length ∧
    alookup (register_agent (fun _ => 7)
        (register_agent (fun _ => 7) ⟨[]⟩ "http://h:1/" false (PyResult.ok (some c3Card)) 1).state
        "http://h:1/" false (PyResult.ok none) 2).state.agents
        (url_to_id (fun _ => 7) "http://h:1/") =
      some { c3Card with lastSeen := 2 } ∧
    url_to_id (fun _ => 7) "http://h:1/" = url_to_id (fun _ => 7) (rstripSlash "http://h:1/") ∧
    url_to_id (fun _ => 7) ("http://h:1/" ++ "/") = url_to_id (fun _ => 7) "http://h:1/" :=
  c3_register_idempotent (fun _ => 7) ⟨[]⟩ "http://h:1/" c3Card 1 2 (PyResult.ok none)
    rfl (by decide)

/-! ## Claim C4 — load counters track in-flight dispatches -/

/-- C4: (a) one run of `_execute_task_on_agent` performs exactly one
increment before the protocol submit and one decrement when it resolves —
its net load effect is exactly the event pair `begin, end`; (b) along every
operationally possible (well-formed) interleaving of dispatch events, the
code's load counter of every agent equals the number of dispatches to that
agent currently in flight, and is never negative; (c) consequently, once a
dispatch resolves — with success, a falsy result, or an exception — the
counters are exactly what they were before it (nothing is left
incremented). -/
theorem c4_load_counter_invariant :
    (∀ (pyhash : String → Int) (loads : Loads) (card : AgentCard) (outcome : DispatchOutcome),
      (execute_task_on_agent pyhash loads card outcome).2 =
        loadsAfter loads
          [Ev.beginDispatch (agentIdOf pyhash card), Ev.endDispatch (agentIdOf pyhash card)]) ∧
    (∀ tr : List Ev, wfTrace [] tr = true →
      ∀ a : Int,
        alookupD (loadsAfter [] tr) a 0 = alookupD (inflightAfter [] tr) a 0 ∧
        0 ≤ alookupD (loadsAfter [] tr) a 0) ∧
    (∀ (pyhash : String → Int) (loads : Loads) (card : AgentCard) (outcome : DispatchOutcome),
      (∀ b, 0 ≤ alookupD loads b 0) →
      ∀ b, alookupD (execute_task_on_agent pyhash loads card outcome).2 b 0 =
        alookupD loads b 0) := by
  refine ⟨?_, ?_, ?_⟩
  · intro pyhash loads card outcome
    rfl
  · intro tr hwf a
    have h := loads_track_inflight tr [] [] (fun _ => rfl) (fun _ => le_refl 0) hwf
    refine ⟨h.1 a, ?_⟩
    rw [h.1 a]
    exact h.2 a
  · intro pyhash loads card outcome hnn b
    show alookupD (decLoad (incLoad loads (agentIdOf pyhash card)) (agentIdOf pyhash card)) b 0 =
      alookupD loads b 0
    have hm : amem (incLoad loads (agentIdOf pyhash card)) (agentIdOf pyhash card) = true := by
      unfold incLoad
      exact amem_aset_self _ _ _
    have hself : alookupD (incLoad loads (agentIdOf pyhash card)) (agentIdOf pyhash card) 0 =
        alookupD loads (agentIdOf pyhash card) 0 + 1 := by
      unfold incLoad
      exact alookupD_aset_self _ _ _ _
    have hmax : max 0 (alookupD (incLoad loads (agentIdOf pyhash card)) (agentIdOf pyhash card) 0 - 1) =
        alookupD loads (agentIdOf pyhash card) 0 := by
      rw [hself]
      have := hnn (agentIdOf pyhash card)
      omega
    by_cases hb : agentIdOf pyhash card = b
    · subst hb
      simp only [decLoad, hm, if_true]
      rw [alookupD_aset_self, hmax]
    · simp only [decLoad, hm, if_true]
      rw [alookupD_aset_ne _ _ _ _ _ hb]
      simp only [incLoad]
      rw [alookupD_aset_ne _ _ _ _ _ hb]

/-- The card used by the C4 witness. -/
def c4Card : AgentCard :=
  { name := "W"
    url := "http://w:1"
    version := "1.0.0"
    description := none
    capabilities := []
    status := "active"
    lastSeen := 0 }

/-- Witness for `c4_load_counter_invariant`: a trace with two overlapping
dispatches to agent 1, and one resolved dispatch restoring a concrete
counter map. -/
theorem c4_witness :
    (alookupD (loadsAfter [] [Ev.beginDispatch 1, Ev.beginDispatch 1, Ev.endDispatch 1]) 1 0 =
        alookupD (inflightAfter [] [Ev.beginDispatch 1, Ev.beginDispatch 1, Ev.endDispatch 1]) 1 0 ∧
      0 ≤ alookupD (loadsAfter [] [Ev.beginDispatch 1, Ev.beginDispatch 1, Ev.endDispatch 1]) 1 0) ∧
    alookupD (execute_task_on_agent (fun _ => 1) [((1 : Int), (3 : Int))] c4Card
        DispatchOutcome.falsy).2 1 0 = alookupD [((1 : Int), (3 : Int))] 1 0 :=
  ⟨c4_load_counter_invariant.2.1 [Ev.beginDispatch 1, Ev.beginDispatch 1, Ev.endDispatch 1]
      (by decide) 1,
   c4_load_counter_invariant.2.2 (fun _ => 1) [((1 : Int), (3 : Int))] c4Card
      DispatchOutcome.falsy
      (by
        intro b
        by_cases hb : (1 : Int) = b
        · subst hb
          decide
        · simp [alookupD, alookup, hb]) 1⟩

/-! ## Claim C9 — snapshots share record objects with the registry -/

/-- `handle_task_failure` always leaves the registry with the failed
agent's entry overwritten to `"unhealthy"` — the status write through the
snapshot reference lands in the registry. -/
theorem handle_task_failure_reg (pyhash : String → Int) (r : RegState) (loads : Loads)
    (t : Task) (k : Int) (c : AgentCard) (o2 : DispatchOutcome) (now : Nat) :
    (handle_task_failure pyhash r loads t k c o2 now).reg = writeStatus r k "unhealthy" := by
  unfold handle_task_failure
  dsimp only
  cases find_suitable_agent pyhash (writeStatus r k "unhealthy") loads with
  | none => rfl
  | some alt =>
    dsimp only
    by_cases hurl : alt.2.url ≠ c.url
    · rw [if_pos hurl]
      cases hok : (execute_task_on_agent pyhash loads alt.2 o2).1 <;> simp [hok]
    · rw [if_neg hurl]

/-- The agent card of the C9 scenario. -/
def c9Card : AgentCard :=
  { name := "A"
    url := "http://a:1"
    version := "1.0.0"
    description := none
    capabilities := []
    status := "active"
    lastSeen := 0 }

/-- A registry holding only `c9Card` under key 5. -/
def c9Reg : RegState := ⟨[(5, c9Card)]⟩

/-- The task of the C9 scenario. -/
def c9Task : Task :=
  { id := Ident.client "t"
    contextId := none
    sessionId := none
    message := { role := "user", text := "m" }
    metadata := []
    status := { state := TaskState.submitted, message := none, error := none, updatedAt := 0 }
    updatedAt := 0 }

/-- A hash assigning every URL the id 5 (one registered agent). -/
def c9hash : String → Int := fun _ => 5

/-- C9 counterexample: the registry's stored record for agent 5 has status
`"active"`; after the scheduler processes a task whose dispatch fails, the
registry's own stored record reads `"unhealthy"` — the scheduler mutated
registry state through the card it got from the `list_agents` snapshot, so
the snapshot is not an independent copy. -/
theorem c9_counterexample :
    c9Card ∈ list_agents c9Reg ∧
    (alookup c9Reg.agents 5).map (fun c => c.status) = some "active" ∧
    (alookup (process_task c9hash c9Reg [] c9Task DispatchOutcome.falsy
        DispatchOutcome.falsy 3).reg.agents 5).map (fun c => c.status) = some "unhealthy" := by
  refine ⟨?_, rfl, rfl⟩
  simp [list_agents, c9Reg]

/-- C9 (amended): `list_agents` builds a fresh list, but its elements are
the registry's stored record objects themselves; the Scheduler's failover
write (`failed_agent.status = "unhealthy"`) therefore changes the
Registry's stored record for the failed agent — the snapshot is shallow,
and the Scheduler does mutate registry state through it. -/
theorem c9_amended (pyhash : String → Int) (r : RegState) (loads : Loads) (t : Task)
    (k : Int) (c : AgentCard) (o2 : DispatchOutcome) (now : Nat)
    (h : alookup r.agents k = some c) :
    alookup (handle_task_failure pyhash r loads t k c o2 now).reg.agents k =
      some { c with status := "unhealthy" } := by
  have hw := alookup_writeStatus_self r k "unhealthy"
  rw [h] at hw
  rw [handle_task_failure_reg]
  exact hw

/-- Witness for `c9_amended` at the concrete C9 scenario. -/
theorem c9_amended_witness :
    alookup (handle_task_failure c9hash c9Reg [] c9Task 5 c9Card
        DispatchOutcome.falsy 3).reg.agents 5 = some { c9Card with status := "unhealthy" } :=
  c9_amended c9hash c9Reg [] c9Task 5 c9Card DispatchOutcome.falsy 3 rfl

/-! ## Claim C5 — at most one failover attempt -/

/-- `handle_task_failure` never performs more than one dispatch. -/
theorem handle_task_failure_dispatches_le_one (pyhash : String → Int) (r : RegState)
    (loads : Loads) (t : Task) (k : Int) (c : AgentCard) (o2 : DispatchOutcome) (now : Nat) :
    (handle_task_failure pyhash r loads t k c o2 now).dispatches.length ≤ 1 := by
  unfold handle_task_failure
  dsimp only
  cases find_suitable_agent pyhash (writeStatus r k "unhealthy") loads with
  | none => simp
  | some alt =>
    dsimp only
    by_cases hurl : alt.2.url ≠ c.url
    · rw [if_pos hurl]
      cases hok : (execute_task_on_agent pyhash loads alt.2 o2).1 <;> simp [hok]
    · rw [if_neg hurl]
      simp

/-- When the re-route finds no candidate, `handle_task_failure` performs no
dispatch and ends the task `FAILED`. -/
theorem handle_task_failure_none (pyhash : String → Int) (r : RegState) (loads : Loads)
    (t : Task) (k : Int) (c : AgentCard) (o2 : DispatchOutcome) (now : Nat)
    (hfind2 : find_suitable_agent pyhash (writeStatus r k "unhealthy") loads = none) :
    (handle_task_failure pyhash r loads t k c o2 now).dispatches = [] ∧
    (handle_task_failure pyhash r loads t k c o2 now).task.status.state = TaskState.failed := by
  unfold handle_task_failure
  dsimp only
  rw [hfind2]
  exact ⟨rfl, rfl⟩

/-- When the re-route finds a candidate with a different URL,
`handle_task_failure` dispatches to it exactly once: the task ends
`COMPLETED` when that dispatch succeeds, `FAILED` otherwise. -/
theorem handle_task_failure_some (pyhash : String → Int) (r : RegState) (loads : Loads)
    (t : Task) (k : Int) (c : AgentCard) (o2 : DispatchOutcome) (now : Nat)
    (alt : Int × AgentCard)
    (hfind2 : find_suitable_agent pyhash (writeStatus r k "unhealthy") loads = some alt)
    (hguard : alt.2.url ≠ c.url) :
    (handle_task_failure pyhash r loads t k c o2 now).dispatches = [alt.1] ∧
    (o2 = DispatchOutcome.ok →
      (handle_task_failure pyhash r loads t k c o2 now).task.status.state =
        TaskState.completed) ∧
    (o2 ≠ DispatchOutcome.ok →
      (handle_task_failure pyhash r loads t k c o2 now).task.status.state =
        TaskState.failed) := by
  unfold handle_task_failure
  dsimp only
  rw [hfind2]
  dsimp only
  rw [if_pos hguard]
  refine ⟨?_, ?_, ?_⟩
  · cases hok : (execute_task_on_agent pyhash loads alt.2 o2).1 <;> simp [hok]
  · intro ho2
    subst ho2
    rw [if_pos (show (execute_task_on_agent pyhash loads alt.2 DispatchOutcome.ok).1 = true
      from rfl)]
    rfl
  · intro ho2
    have hok : (execute_task_on_agent pyhash loads alt.2 o2).1 = false := by
      cases o2 with
      | ok => exact absurd rfl ho2
      | falsy => rfl
      | exn e => rfl
    rw [if_neg (by simp [hok])]
    rfl

/-- C5: (1) for every input — however many agents are registered — a task
processing run performs at most two dispatches (the original and at most
one failover); (2) when the first dispatch (to the routed agent `(k1, c1)`)
fails, the registry's stored record for `k1` ends `"unhealthy"`, the
re-route runs against the registry with `k1` so excluded, and: if it finds
an alternate, exactly that one further dispatch happens — the task ends
`COMPLETED` if it succeeds and `FAILED` if it fails — and if it finds none
the task ends `FAILED` with no second dispatch. The hypothesis is the
spec's own data-model invariant "at most one record per URL" (pairwise
distinct record URLs), which makes the `alternative.url != failed.url`
guard pass for every found alternate. -/
theorem c5_single_failover (pyhash : String → Int) (r : RegState) (loads : Loads)
    (t : Task) (o1 o2 : DispatchOutcome) (now : Nat)
    (hurls : r.agents.Pairwise (fun e1 e2 => e1.2.url ≠ e2.2.url)) :
    (process_task pyhash r loads t o1 o2 now).dispatches.length ≤ 2 ∧
    (∀ k1 c1, find_suitable_agent pyhash r loads = some (k1, c1) →
      o1 ≠ DispatchOutcome.ok →
      alookup (process_task pyhash r loads t o1 o2 now).reg.agents k1 =
        (alookup r.agents k1).map (fun c => { c with status := "unhealthy" }) ∧
      (match find_suitable_agent pyhash (writeStatus r k1 "unhealthy")
          (execute_task_on_agent pyhash loads c1 o1).2 with
       | some alt =>
         (process_task pyhash r loads t o1 o2 now).dispatches = [k1, alt.1] ∧
         (o2 = DispatchOutcome.ok →
           (process_task pyhash r loads t o1 o2 now).task.status.state =
             TaskState.completed) ∧
         (o2 ≠ DispatchOutcome.ok →
           (process_task pyhash r loads t o1 o2 now).task.status.state =
             TaskState.failed)
       | none =>
         (process_task pyhash r loads t o1 o2 now).dispatches = [k1] ∧
         (process_task pyhash r loads t o1 o2 now).task.status.state =
           TaskState.failed)) := by
  constructor
  · unfold process_task
    dsimp only
    cases find_suitable_agent pyhash r loads with
    | none => simp
    | some chosen =>
      dsimp only
      by_cases hres : (execute_task_on_agent pyhash loads chosen.2 o1).1 = true
      · rw [if_pos hres]
        simp
      · rw [if_neg hres]
        have hle := handle_task_failure_dispatches_le_one pyhash r
          (execute_task_on_agent pyhash loads chosen.2 o1).2
          (t.update_status TaskState.in_progress (some "Finding suitable agent") none now)
          chosen.1 chosen.2 o2 now
        simp only [List.length_cons]
        omega
  · intro k1 c1 hfind ho1
    have hfail : (execute_task_on_agent pyhash loads c1 o1).1 = false := by
      cases o1 with
      | ok => exact absurd rfl ho1
      | falsy => rfl
      | exn e => rfl
    have hproc : process_task pyhash r loads t o1 o2 now =
        { handle_task_failure pyhash r (execute_task_on_agent pyhash loads c1 o1).2
            (t.update_status TaskState.in_progress (some "Finding suitable agent") none now)
            k1 c1 o2 now with
          dispatches := k1 ::
            (handle_task_failure pyhash r (execute_task_on_agent pyhash loads c1 o1).2
              (t.update_status TaskState.in_progress (some "Finding suitable agent") none now)
              k1 c1 o2 now).dispatches } := by
      unfold process_task
      dsimp only
      rw [hfind]
      dsimp only
      rw [if_neg (by simp [hfail])]
    constructor
    · rw [hproc]
      dsimp only
      rw [handle_task_failure_reg]
      exact alookup_writeStatus_self r k1 "unhealthy"
    · cases hfind2 : find_suitable_agent pyhash (writeStatus r k1 "unhealthy")
          (execute_task_on_agent pyhash loads c1 o1).2 with
      | none =>
        have hn := handle_task_failure_none pyhash r
          (execute_task_on_agent pyhash loads c1 o1).2
          (t.update_status TaskState.in_progress (some "Finding suitable agent") none now)
          k1 c1 o2 now hfind2
        constructor
        · rw [hproc]
          dsimp only
          rw [hn.1]
        · rw [hproc]
          dsimp only
          exact hn.2
      | some alt =>
        have hmem1 := find_suitable_agent_mem pyhash r loads (k1, c1) hfind
        have hmem2 := find_suitable_agent_mem pyhash (writeStatus r k1 "unhealthy")
          (execute_task_on_agent pyhash loads c1 o1).2 alt hfind2
        have hkne : alt.1 ≠ k1 :=
          writeStatus_key_ne_of_active r k1 alt hmem2.1 hmem2.2
        have haltmem : alt ∈ r.agents :=
          writeStatus_mem_of_ne r k1 "unhealthy" alt hmem2.1 hkne
        have hne : (k1, c1) ≠ alt := by
          intro he
          rw [← he] at hkne
          exact hkne rfl
        have hurl : c1.url ≠ alt.2.url :=
          (List.Pairwise.forall (fun a b h => Ne.symm h) hurls) hmem1.1 haltmem hne
        have hs := handle_task_failure_some pyhash r
          (execute_task_on_agent pyhash loads c1 o1).2
          (t.update_status TaskState.in_progress (some "Finding suitable agent") none now)
          k1 c1 o2 now alt hfind2 (Ne.symm hurl)
        refine ⟨?_, ?_, ?_⟩
        · rw [hproc]
          dsimp only
          rw [hs.1]
        · intro ho2
          rw [hproc]
          dsimp only
          exact hs.2.1 ho2
        · intro ho2
          rw [hproc]
          dsimp only
          exact hs.2.2 ho2

/-- First agent of the C5 witness scenario. -/
def c5A : AgentCard :=
  { name := "A"
    url := "http://a:1"
    version := "1.0.0"
    description := none
    capabilities := []
    status := "active"
    lastSeen := 0 }

/-- Second agent of the C5 witness scenario. -/
def c5B : AgentCard :=
  { name := "B"
    url := "http://b:1"
    version := "1.0.0"
    description := none
    capabilities := []
    status := "active"
    lastSeen := 0 }

/-- Registry with the two C5 agents. -/
def c5Reg : RegState := ⟨[(1, c5A), (2, c5B)]⟩

/-- Hash giving each C5 agent its registry key. -/
def c5hash : String → Int := fun s => if s = "http://a:1" then 1 else 2

/-- Task of the C5 witness scenario. -/
def c5Task : Task :=
  { id := Ident.client "t5"
    contextId := none
    sessionId := none
    message := { role := "user", text := "m" }
    metadata := []
    status := { state := TaskState.submitted, message := none, error := none, updatedAt := 0 }
    updatedAt := 0 }

/-- Witness for `c5_single_failover`: Scenario D — two agents, the first
dispatch fails, the second succeeds. -/
theorem c5_witness :
    (process_task c5hash c5Reg [] c5Task DispatchOutcome.falsy DispatchOutcome.ok
        7).dispatches.length ≤ 2 ∧
    (alookup (process_task c5hash c5Reg [] c5Task DispatchOutcome.falsy DispatchOutcome.ok
          7).reg.agents 1 =
        (alookup c5Reg.agents 1).map (fun c => { c with status := "unhealthy" }) ∧
      (match find_suitable_agent c5hash (writeStatus c5Reg 1 "unhealthy")
          (execute_task_on_agent c5hash [] c5A DispatchOutcome.falsy).2 with
       | some alt =>
         (process_task c5hash c5Reg [] c5Task DispatchOutcome.falsy DispatchOutcome.ok
             7).dispatches = [1, alt.1] ∧
         (DispatchOutcome.ok = DispatchOutcome.ok →
           (process_task c5hash c5Reg [] c5Task DispatchOutcome.falsy DispatchOutcome.ok
               7).task.status.state = TaskState.completed) ∧
         (DispatchOutcome.ok ≠ DispatchOutcome.ok →
           (process_task c5hash c5Reg [] c5Task DispatchOutcome.falsy DispatchOutcome.ok
               7).task.status.state = TaskState.failed)
       | none =>
         (process_task c5hash c5Reg [] c5Task DispatchOutcome.falsy DispatchOutcome.ok
             7).dispatches = [1] ∧
         (process_task c5hash c5Reg [] c5Task DispatchOutcome.falsy DispatchOutcome.ok
             7).task.status.state = TaskState.failed)) :=
  ⟨(c5_single_failover c5hash c5Reg [] c5Task DispatchOutcome.falsy DispatchOutcome.ok 7
      (by decide)).1,
   (c5_single_failover c5hash c5Reg [] c5Task DispatchOutcome.falsy DispatchOutcome.ok 7
      (by decide)).2 1 c5A rfl (by decide)⟩

/-! ## Claim C6 — no active agent means FAILED, never COMPLETED -/

/-- C6: when no registered agent has status `"active"`, processing a task
terminates (the embedding is a total function) in state `FAILED` with the
"No suitable agent found" reason, performing no dispatch; in particular the
task never reports `COMPLETED`. -/
theorem c6_no_active_agent_fails (pyhash : String → Int) (r : RegState) (loads : Loads)
    (t : Task) (o1 o2 : DispatchOutcome) (now : Nat)
    (h : ∀ e ∈ r.agents, e.2.status ≠ "active") :
    (process_task pyhash r loads t o1 o2 now).task.status.state = TaskState.failed ∧
    (process_task pyhash r loads t o1 o2 now).task.status.message =
      some "No suitable agent found" ∧
    (process_task pyhash r loads t o1 o2 now).dispatches = [] ∧
    (process_task pyhash r loads t o1 o2 now).task.status.state ≠ TaskState.completed := by
  have hfilter : activeEntries r = [] := by
    unfold activeEntries
    rw [List.filter_eq_nil_iff]
    intro e he
    simpa using h e he
  have hfind : find_suitable_agent pyhash r loads = none := by
    unfold find_suitable_agent
    rw [hfilter]
    rfl
  refine ⟨?_, ?_, ?_, ?_⟩ <;>
    simp [process_task, hfind, Task.update_status]

/-- Witness for `c6_no_active_agent_fails`: an empty registry. -/
theorem c6_witness :
    (process_task (fun _ => 0) ⟨[]⟩ [] c2Task DispatchOutcome.ok DispatchOutcome.ok
        3).task.status.state = TaskState.failed ∧
    (process_task (fun _ => 0) ⟨[]⟩ [] c2Task DispatchOutcome.ok DispatchOutcome.ok
        3).task.status.message = some "No suitable agent found" ∧
    (process_task (fun _ => 0) ⟨[]⟩ [] c2Task DispatchOutcome.ok DispatchOutcome.ok
        3).dispatches = [] ∧
    (process_task (fun _ => 0) ⟨[]⟩ [] c2Task DispatchOutcome.ok DispatchOutcome.ok
        3).task.status.state ≠ TaskState.completed :=
  c6_no_active_agent_fails (fun _ => 0) ⟨[]⟩ [] c2Task DispatchOutcome.ok DispatchOutcome.ok 3
    (by intro e he; cases he)

/-! ## Claim C7 — `find_agents_by_capability` on dict-shaped entries -/

/-- A registered card with a dict capability entry named "chat": exactly
what registering an agent whose JSON card advertises one capability
produces. -/
def c7Card : AgentCard :=
  { name := "X"
    url := "http://h:1"
    version := "1.0.0"
    description := none
    capabilities := [CapEntry.dict [("name", "chat"), ("description", "chatting")]]
    status := "active"
    lastSeen := 0 }

/-- `c7Card` stored in the registry. -/
def c7Reg : RegState := ⟨[(1, c7Card)]⟩

/-- A registered card with an empty capabilities list. -/
def c7NoCapCard : AgentCard :=
  { name := "Y"
    url := "http://h:2"
    version := "1.0.0"
    description := none
    capabilities := []
    status := "active"
    lastSeen := 0 }

/-- `c7NoCapCard` stored in the registry. -/
def c7EmptyCapReg : RegState := ⟨[(2, c7NoCapCard)]⟩

/-- C7 (code bug): with a record whose capability entries are plain dicts —
the shape the pydantic annotation `List[Dict[str, Any]]` gives every entry
parsed from an agent's JSON — `find_agents_by_capability` raises
`AttributeError` at `capability.name` instead of matching (or returning
`[]`); only records with an empty capabilities list avoid the crash. The
sibling `_get_capability_stats` handles the dict shape explicitly, so the
attribute access is a slip against the code's own data shape. -/
theorem c7_dict_capability_attribute_error :
    find_agents_by_capability c7Reg "chat" =
      Except.error "AttributeError: dict object has no attribute name" ∧
    find_agents_by_capability c7Reg "anything" =
      Except.error "AttributeError: dict object has no attribute name" ∧
    find_agents_by_capability c7EmptyCapReg "anything" = Except.ok [] := by
  refine ⟨rfl, rfl, rfl⟩

/-! ## Claim C8 — `health_check` truth condition -/

/-- C8 counterexample: a `204 No Content` health response is 2xx, but
`health_check` tests `status_code == 200` and returns `false` — so
"returns true exactly when the response is 2xx" fails at 204. -/
theorem c8_counterexample :
    ¬ ((health_check "http://h:1" (HttpOutcome.status 204) = true) ↔
        (200 ≤ 204 ∧ 204 ≤ 299)) := by
  decide

/-- C8 (amended): `health_check` returns `true` exactly when the GET of the
agent's health path yields status 200 (not any 2xx); any other status or a
raised transport error yields `false`, and the function never throws (it is
total, mirroring the catch-all `except`). -/
theorem c8_amended (agentUrl : String) (response : HttpOutcome) :
    health_check agentUrl response = true ↔ response = HttpOutcome.status 200 := by
  cases response with
  | status code => simp [health_check]
  | transportError e => simp [health_check]

/-! ## Claim C10 — the wire payload's `task_id` is fresh per dispatch -/

/-- The scheduler's task id predates the current uuid-supply position:
either it was drawn from the supply earlier, or it was caller-supplied
(never drawn at all). -/
def genBefore : Ident → Gen → Bool
  | Ident.uuid k, g => decide (k < g.counter)
  | Ident.client _, _ => true

/-- C10: the payload `task_id` that `submit_task` puts on the wire is the
second fresh uuid drawn in that call (the first is the correlation id); it
differs from the scheduler's id of the task being dispatched (which the
built `TaskRequest` does not even contain), and a second dispatch of the
same task draws a different payload `task_id`. -/
theorem c10_payload_task_id_fresh (t : Task) (g : Gen) (now now2 : Nat)
    (h : genBefore t.id g = true) :
    (build_submit_request (mkTaskRequest t) g now).1.payload.taskId =
      Ident.uuid (g.counter + 1) ∧
    (build_submit_request (mkTaskRequest t) g now).1.payload.taskId ≠ t.id ∧
    (build_submit_request (mkTaskRequest t)
        (build_submit_request (mkTaskRequest t) g now).2 now2).1.payload.taskId ≠
      (build_submit_request (mkTaskRequest t) g now).1.payload.taskId := by
  refine ⟨rfl, ?_, ?_⟩
  · cases ht : t.id with
    | uuid k =>
      rw [ht] at h
      simp only [genBefore, decide_eq_true_eq] at h
      show Ident.uuid (g.counter + 1) ≠ Ident.uuid k
      intro heq
      injection heq with heq
      omega
    | client s =>
      show Ident.uuid (g.counter + 1) ≠ Ident.client s
      intro heq
      cases heq
  · show Ident.uuid (g.counter + 2 + 1) ≠ Ident.uuid (g.counter + 1)
    intro heq
    injection heq with heq
    omega

/-- Witness for `c10_payload_task_id_fresh`: a task whose id was the 0-th
uuid draw, dispatched when the supply is at position 1. -/
theorem c10_witness :
    (build_submit_request (mkTaskRequest { c2Task with id := Ident.uuid 0 })
        { counter := 1 } 5).1.payload.taskId = Ident.uuid ((1 : Nat) + 1) ∧
    (build_submit_request (mkTaskRequest { c2Task with id := Ident.uuid 0 })
        { counter := 1 } 5).1.payload.taskId ≠ Ident.uuid 0 ∧
    (build_submit_request (mkTaskRequest { c2Task with id := Ident.uuid 0 })
        (build_submit_request (mkTaskRequest { c2Task with id := Ident.uuid 0 })
          { counter := 1 } 5).2 6).1.payload.taskId ≠
      (build_submit_request (mkTaskRequest { c2Task with id := Ident.uuid 0 })
        { counter := 1 } 5).1.payload.taskId :=
  c10_payload_task_id_fresh { c2Task with id := Ident.uuid 0 } { counter := 1 } 5 6 (by decide)

end A2A
